import Mathlib

/-
Verification development for the locsat-tables repository.

The repository contains several near-duplicate Python scripts that generate
LocSAT travel-time tables.  This file shallowly embeds the decision logic of
those scripts:

* `GTT`  : generate_travel_time_tables.py (default mode, max_distance = 180)
* `Iasp` : make-locsat-tables-iasp91.py
* `GLT`  : generate_local_tables.py
* `Tvel` : generate_travel_time_tables-with-tvel.py
* `TTT`  : travel-time-tables.py

Depths, distances and velocities are modelled as rationals (the Python code
branches on them with exact comparisons such as `depth == 0`); travel times
are modelled as reals because the analytic crustal-phase overrides use a
square root.  The external travel-time oracle (`seiscomp` `ttt.compute`) is
modelled as an explicit list of arrivals passed to the resolver; an oracle
exception in generate_travel_time_tables.py is caught and turned into the
empty list, which is one instance of that parameter.
-/

/-- One oracle arrival: phase label, travel time and the two slowness
derivatives (pass-through values only). Mirrors the `Arrival` dataclass of
generate_travel_time_tables.py. -/
structure Arrival where
  phase : String
  time : ℝ
  dtdd : ℝ
  dtdh : ℝ

/-- The `distance_limits` / `distanceLimits` table, identical in
generate_travel_time_tables.py (default mode: `(0, min 116 180)` and
`(118, 180)`) and in make-locsat-tables-iasp91.py. -/
def distanceLimits : String → Option (ℚ × ℚ)
  | "Pdiff" => some (0, 116)
  | "PKPdf" => some (118, 180)
  | "Sdiff" => some (0, 116)
  | "SKSdf" => some (118, 180)
  | _ => none

/-- The `phase_combinations` / `phaseCombinations` table, identical in
generate_travel_time_tables.py and make-locsat-tables-iasp91.py. -/
def phaseCombinations : String → Option (List String)
  | "P" => some ["Pg", "Pb", "Pn", "P", "Pdiff", "PKPdf"]
  | "PKP" => some ["PKPab", "PKPbc", "PKPdf"]
  | "pP" => some ["pP", "pPn", "pPdiff"]
  | "sP" => some ["sP", "sPn", "sPdiff"]
  | "PP" => some ["PP", "PnPn"]
  | "S" => some ["S", "Sn", "Sg", "Sb", "Sdiff"]
  | "sS" => some ["sS", "sSg", "sSb", "sSn", "sSdiff"]
  | "SS" => some ["SS", "SnSn"]
  | "Pg" => some ["Pg", "PgPg"]
  | "Sg" => some ["Sg", "SgSg"]
  | _ => none

/-- The distance-limit rejection test of the arrival loop: an arrival label
that appears in `distanceLimits` is skipped when the query distance lies
outside its window (`if not dmin <= distance <= dmax: continue`). -/
def limitExcludes (label : String) (distance : ℚ) : Bool :=
  match distanceLimits label with
  | some (dmin, dmax) => !(decide (dmin ≤ distance) && decide (distance ≤ dmax))
  | none => false

/-- The arrival-selection loop shared by `_find_arrival`
(generate_travel_time_tables.py, lines 280-292, where `ph` is `orig_phase`)
and `create_table` (make-locsat-tables-iasp91.py, lines 202-217, where `ph`
is the zero-depth-stripped name): skip arrivals excluded by a distance-limit
window, accept the first arrival whose label is in `phaseCombinations ph`,
or, when `ph` has no combination entry, whose label equals `ph`. -/
def findFirst (ph : String) (distance : ℚ) : List Arrival → Option Arrival
  | [] => none
  | arr :: rest =>
    if limitExcludes arr.phase distance then
      findFirst ph distance rest
    else
      match phaseCombinations ph with
      | some combos =>
        if arr.phase ∈ combos then some arr else findFirst ph distance rest
      | none =>
        if arr.phase = ph then some arr else findFirst ph distance rest

/-- `approximate_pg_time` (generate_travel_time_tables.py, lines 252-256;
the same formula appears in make-locsat-tables-iasp91.py, lines 237-243):
`v = 5.8 + 0.0006*depth`, `time = sqrt((111.195*distance)^2 + depth^2)/v`. -/
noncomputable def approximate_pg_time (distance depth : ℚ) : Arrival :=
  { phase := "Pg"
    time := Real.sqrt ((111.195 * (distance : ℝ)) ^ 2 + (depth : ℝ) ^ 2) /
      (5.8 + 0.0006 * (depth : ℝ))
    dtdd := -1
    dtdh := -1 }

/-- `approximate_sg_time` (generate_travel_time_tables.py, lines 258-262;
the same formula appears in make-locsat-tables-iasp91.py, lines 245-255):
`v = 3.36 + 0.00037*depth`. -/
noncomputable def approximate_sg_time (distance depth : ℚ) : Arrival :=
  { phase := "Sg"
    time := Real.sqrt ((111.195 * (distance : ℝ)) ^ 2 + (depth : ℝ) ^ 2) /
      (3.36 + 0.00037 * (depth : ℝ))
    dtdd := -1
    dtdh := -1 }

namespace GTT

/-- `TravelTimeCalculator._find_arrival` (generate_travel_time_tables.py,
lines 264-292).  `Pg` and `Sg` return the analytic approximation before the
oracle is consulted.  Note: at `depth == 0` the source computes the stripped
depth-phase name `phase[1:]` into a local variable (line 275), but the
matching below it uses `orig_phase` throughout, so the stripped name is dead
and the selection does not depend on the depth. -/
noncomputable def find_arrival (phase : String) (distance depth : ℚ)
    (arrivals : List Arrival) : Option Arrival :=
  if phase = "Pg" then some (approximate_pg_time distance depth)
  else if phase = "Sg" then some (approximate_sg_time distance depth)
  else findFirst phase distance arrivals

/-- The per-cell body of `TravelTimeCalculator.create_table`
(generate_travel_time_tables.py, lines 320-328): find the arrival, clamp the
time to `0` at `depth == 0 and distance == 0`, and return `none` (serialized
as the `-1` sentinel) when nothing was found. -/
noncomputable def resolveCell (phase : String) (depth distance : ℚ)
    (arrivals : List Arrival) : Option ℝ :=
  match find_arrival phase distance depth arrivals with
  | some arr => some (if depth = 0 ∧ distance = 0 then 0 else arr.time)
  | none => none

end GTT

/-- The zero-depth effective lookup name of make-locsat-tables-iasp91.py
(lines 189-192): at `z == 0` a leading depth-phase letter `p` or `s` is
stripped before matching. -/
def effName (phase : String) (z : ℚ) : String :=
  if z = 0 ∧ (phase.front = 'p' ∨ phase.front = 's') then phase.drop 1
  else phase

namespace Iasp

/-- The per-cell body of `create_table` (make-locsat-tables-iasp91.py,
lines 187-273): compute the effective name, run the arrival-selection loop,
then (lines 222-255) replace the result entirely with the analytic
approximation when the requested phase is `Pg` or `Sg`, then (lines 260-262)
clamp the time to `0` at `z == 0 and d == 0`; `none` is serialized as the
`-1` sentinel. -/
noncomputable def resolveCell (phase : String) (z d : ℚ)
    (arrivals : List Arrival) : Option ℝ :=
  let found := findFirst (effName phase z) d arrivals
  let arr :=
    if phase = "Pg" then some (approximate_pg_time d z)
    else if phase = "Sg" then some (approximate_sg_time d z)
    else found
  arr.map (fun a => if z = 0 ∧ d = 0 then (0 : ℝ) else a.time)

end Iasp

/-- The acceptance predicate written from the claim wording of §4.3 step 8:
an arrival is accepted when its label is in the phase's combine set (or,
without a combine set, equals the effective lookup name exactly) and it is
not excluded by a distance-limit window. -/
def claimMatches (ph : String) (d : ℚ) (a : Arrival) : Bool :=
  (match phaseCombinations ph with
   | some combos => decide (a.phase ∈ combos)
   | none => a.phase == ph) && !(limitExcludes a.phase d)

/-- Spec-side first-match selection: the first arrival, in oracle order,
accepted by `claimMatches`. -/
def specFirstMatch (ph : String) (d : ℚ) (arrivals : List Arrival) :
    Option Arrival :=
  arrivals.find? (claimMatches ph d)

theorem findFirst_eq_specFirstMatch (ph : String) (d : ℚ)
    (arrivals : List Arrival) :
    findFirst ph d arrivals = specFirstMatch ph d arrivals := by
  induction arrivals with
  | nil => rfl
  | cons arr rest ih =>
    simp only [findFirst, specFirstMatch, List.find?_cons, claimMatches]
    cases hex : limitExcludes arr.phase d with
    | true => simp [hex, ih, specFirstMatch]
    | false =>
      cases hcomb : phaseCombinations ph with
      | none =>
        cases heq : arr.phase == ph with
        | true => simp_all [beq_iff_eq]
        | false => simp_all [beq_iff_eq, specFirstMatch]
      | some combos =>
        by_cases hmem : arr.phase ∈ combos
        · simp [hex, hcomb, hmem]
        · simp [hex, hcomb, hmem, ih, specFirstMatch]

theorem findFirst_respects_limits (ph : String) (d : ℚ) :
    ∀ (arrivals : List Arrival) (arr : Arrival) (dmin dmax : ℚ),
      findFirst ph d arrivals = some arr →
      distanceLimits arr.phase = some (dmin, dmax) →
      dmin ≤ d ∧ d ≤ dmax := by
  intro arrivals
  induction arrivals with
  | nil => intro arr dmin dmax h; simp [findFirst] at h
  | cons a rest ih =>
    intro arr dmin dmax h hlim
    simp only [findFirst] at h
    split at h
    · exact ih arr dmin dmax h hlim
    · rename_i hex
      split at h
      · split at h
        · injection h with h
          subst h
          unfold limitExcludes at hex
          rw [hlim] at hex
          simpa using hex
        · exact ih arr dmin dmax h hlim
      · split at h
        · injection h with h
          subst h
          unfold limitExcludes at hex
          rw [hlim] at hex
          simpa using hex
        · exact ih arr dmin dmax h hlim

theorem approx_pg_time_two_zero :
    (approximate_pg_time 2 0).time = 222.39 / 5.8 := by
  simp only [approximate_pg_time]
  rw [show (111.195 * ((2 : ℚ) : ℝ)) ^ 2 + (((0 : ℚ) : ℝ)) ^ 2 = 222.39 ^ 2 by
    push_cast
    norm_num]
  rw [Real.sqrt_sq (by norm_num)]
  push_cast
  norm_num

/-- Claim C1 counterexample: the claim fails as stated.  (a) `Pg` has a
combine set (`{Pg, PgPg}`), yet `resolve` replaces the matching oracle
arrival (`Pg`, time 42) with the analytic approximation, so the time is not
returned unchanged; (b) at depth 0 and distance 0 the clamp changes the
matched arrival's time 42 to 0; (c) at zero depth a depth phase such as `pP`
is matched against the stripped effective name's combine set, not against
`pP`'s own combine set, so an arrival labelled `pPn` (in `pP`'s combine set)
is not accepted. -/
theorem c1_first_match_cex :
    Iasp.resolveCell "Pg" 0 2 [⟨"Pg", 42, -1, -1⟩] ≠ some 42
    ∧ Iasp.resolveCell "P" 0 0 [⟨"P", 42, 0, 0⟩] = some 0
    ∧ Iasp.resolveCell "pP" 0 30 [⟨"pPn", 7, 0, 0⟩] = none := by
  refine ⟨?_, rfl, rfl⟩
  intro h
  have hval : Iasp.resolveCell "Pg" 0 2 [⟨"Pg", 42, -1, -1⟩]
      = some ((approximate_pg_time 2 0).time) := rfl
  rw [hval] at h
  have ht := Option.some.inj h
  rw [approx_pg_time_two_zero] at ht
  norm_num at ht

/-- Claim C1 (amended): for every phase without an analytic override (i.e.
other than `Pg` and `Sg`) and every cell outside the zero/zero clamp,
`resolve` returns the time, unchanged, of the first arrival in the oracle's
returned order whose label is in the effective lookup name's combine set
(or, without a combine set, equals the effective lookup name exactly) and is
not excluded by a distance-limit window; later matching arrivals never
influence the result. -/
theorem c1_first_match_amended (phase : String) (z d : ℚ)
    (arrivals : List Arrival) (hpg : phase ≠ "Pg") (hsg : phase ≠ "Sg")
    (hzd : ¬(z = 0 ∧ d = 0)) :
    Iasp.resolveCell phase z d arrivals =
      (specFirstMatch (effName phase z) d arrivals).map Arrival.time := by
  simp only [Iasp.resolveCell, findFirst_eq_specFirstMatch, if_neg hpg,
    if_neg hsg]
  cases specFirstMatch (effName phase z) d arrivals with
  | none => rfl
  | some a => simp [hzd]

/-- Claim C1 witness: the amended claim at a concrete input. -/
theorem c1_first_match_witness :
    Iasp.resolveCell "P" 10 50 [⟨"Pn", 33, 0, 0⟩] = some 33 := by
  have h := c1_first_match_amended "P" 10 50 [⟨"Pn", 33, 0, 0⟩]
    (by decide) (by decide) (by norm_num)
  rw [h]
  rfl

/-- Claim C2: for every phase and oracle reply, a found arrival at
`depth == 0 and distance == 0` resolves to exactly `0` regardless of the
reported time, and at every other cell the found arrival's time is passed
through with no clamp applied. -/
theorem c2_zero_clamp :
    (∀ (phase : String) (arrivals : List Arrival) (t : ℝ),
       GTT.resolveCell phase 0 0 arrivals = some t → t = 0)
    ∧ (∀ (phase : String) (z d : ℚ) (arrivals : List Arrival),
       ¬(z = 0 ∧ d = 0) →
       GTT.resolveCell phase z d arrivals =
         (GTT.find_arrival phase d z arrivals).map Arrival.time) := by
  constructor
  · intro phase arrivals t h
    unfold GTT.resolveCell at h
    cases hf : GTT.find_arrival phase 0 0 arrivals with
    | none => rw [hf] at h; exact absurd h (by simp)
    | some arr =>
      rw [hf] at h
      have ht := Option.some.inj h
      simpa using ht.symm
  · intro phase z d arrivals hzd
    unfold GTT.resolveCell
    cases GTT.find_arrival phase d z arrivals with
    | none => rfl
    | some arr => simp [hzd]

/-- Claim C2 witness: the clamp at the origin and the pass-through at a
nonzero cell, at concrete inputs. -/
theorem c2_zero_clamp_witness :
    GTT.resolveCell "P" 3 5 [⟨"P", 7, 0, 0⟩] = some 7 ∧ (0 : ℝ) = 0 := by
  constructor
  · have h := c2_zero_clamp.2 "P" 3 5 [⟨"P", 7, 0, 0⟩] (by norm_num)
    rw [h]
    rfl
  · exact c2_zero_clamp.1 "P" [⟨"P", 7, 0, 0⟩] 0 rfl

/-- Claim C3: an accepted arrival whose own label carries a distance-limit
window always lies inside that window, for every phase, depth and oracle
reply; in particular an arrival labelled `PKPdf` is never accepted at
distance 100 degrees. -/
theorem c3_distance_limits :
    (∀ (phase : String) (z d : ℚ) (arrivals : List Arrival) (arr : Arrival)
       (dmin dmax : ℚ),
       GTT.find_arrival phase d z arrivals = some arr →
       distanceLimits arr.phase = some (dmin, dmax) →
       dmin ≤ d ∧ d ≤ dmax)
    ∧ (∀ (phase : String) (z : ℚ) (arrivals : List Arrival) (arr : Arrival),
       GTT.find_arrival phase 100 z arrivals = some arr →
       arr.phase ≠ "PKPdf") := by
  have main : ∀ (phase : String) (z d : ℚ) (arrivals : List Arrival)
      (arr : Arrival) (dmin dmax : ℚ),
      GTT.find_arrival phase d z arrivals = some arr →
      distanceLimits arr.phase = some (dmin, dmax) →
      dmin ≤ d ∧ d ≤ dmax := by
    intro phase z d arrivals arr dmin dmax hf hlim
    by_cases hpg : phase = "Pg"
    · rw [hpg] at hf
      simp only [GTT.find_arrival, if_pos rfl] at hf
      injection hf with hf
      rw [← hf] at hlim
      simp [approximate_pg_time, distanceLimits] at hlim
    · by_cases hsg : phase = "Sg"
      · rw [hsg] at hf
        have hne : ("Sg" : String) ≠ "Pg" := by decide
        simp only [GTT.find_arrival, if_neg hne, if_pos rfl] at hf
        injection hf with hf
        rw [← hf] at hlim
        simp [approximate_sg_time, distanceLimits] at hlim
      · simp only [GTT.find_arrival, if_neg hpg, if_neg hsg] at hf
        exact findFirst_respects_limits phase d arrivals arr dmin dmax hf hlim
  refine ⟨main, ?_⟩
  intro phase z arrivals arr hf hphase
  have hwin := main phase z 100 arrivals arr 118 180 hf (by rw [hphase]; rfl)
  norm_num at hwin

/-- Claim C3 witness: a `Pdiff` arrival accepted at distance 100 satisfies
the `Pdiff` window bounds. -/
theorem c3_distance_limits_witness : (0 : ℚ) ≤ 100 ∧ (100 : ℚ) ≤ 116 :=
  c3_distance_limits.1 "P" 0 100 [⟨"Pdiff", 900, 0, 0⟩] ⟨"Pdiff", 900, 0, 0⟩
    0 116 rfl rfl

/-- Claim C4: for every depth `z`, distance `d` and oracle reply, resolving
`Pg` yields `sqrt((111.195*d)^2 + z^2) / (5.8 + 0.0006*z)` and resolving
`Sg` yields `sqrt((111.195*d)^2 + z^2) / (3.36 + 0.00037*z)`; in particular
`resolve("Pg", 10, 2.0)` equals
`sqrt((2.0*111.195)^2 + 10^2) / (5.8 + 0.0006*10)`. -/
theorem c4_pg_sg_analytic :
    (∀ (z d : ℚ) (arrivals : List Arrival),
       GTT.resolveCell "Pg" z d arrivals =
         some (Real.sqrt ((111.195 * (d : ℝ)) ^ 2 + (z : ℝ) ^ 2) /
           (5.8 + 0.0006 * (z : ℝ))))
    ∧ (∀ (z d : ℚ) (arrivals : List Arrival),
       GTT.resolveCell "Sg" z d arrivals =
         some (Real.sqrt ((111.195 * (d : ℝ)) ^ 2 + (z : ℝ) ^ 2) /
           (3.36 + 0.00037 * (z : ℝ))))
    ∧ GTT.resolveCell "Pg" 10 2 [] =
        some (Real.sqrt ((2 * 111.195) ^ 2 + 10 ^ 2) /
          (5.8 + 0.0006 * 10)) := by
  have hpg : ∀ (z d : ℚ) (arrivals : List Arrival),
      GTT.resolveCell "Pg" z d arrivals =
        some (Real.sqrt ((111.195 * (d : ℝ)) ^ 2 + (z : ℝ) ^ 2) /
          (5.8 + 0.0006 * (z : ℝ))) := by
    intro z d arrivals
    by_cases hzd : z = 0 ∧ d = 0
    · obtain ⟨hz, hd⟩ := hzd
      subst hz
      subst hd
      simp only [GTT.resolveCell, GTT.find_arrival, if_pos rfl]
      norm_num
    · simp [GTT.resolveCell, GTT.find_arrival, approximate_pg_time, hzd]
  have hsg : ∀ (z d : ℚ) (arrivals : List Arrival),
      GTT.resolveCell "Sg" z d arrivals =
        some (Real.sqrt ((111.195 * (d : ℝ)) ^ 2 + (z : ℝ) ^ 2) /
          (3.36 + 0.00037 * (z : ℝ))) := by
    intro z d arrivals
    by_cases hzd : z = 0 ∧ d = 0
    · obtain ⟨hz, hd⟩ := hzd
      subst hz
      subst hd
      have hne : ("Sg" : String) ≠ "Pg" := by decide
      simp only [GTT.resolveCell, GTT.find_arrival, if_neg hne, if_pos rfl]
      norm_num
    · simp [GTT.resolveCell, GTT.find_arrival, approximate_sg_time, hzd]
  refine ⟨hpg, hsg, ?_⟩
  rw [hpg 10 2 []]
  norm_num

/-- Claim C5: the analytic-override paths for `Pg` and `Sg` never depend on
what the oracle returned: two runs that differ only in the oracle reply
produce identical results, in both resolver implementations. -/
theorem c5_analytic_noninterference :
    ∀ (z d : ℚ) (a1 a2 : List Arrival),
      GTT.find_arrival "Pg" d z a1 = GTT.find_arrival "Pg" d z a2
      ∧ GTT.find_arrival "Sg" d z a1 = GTT.find_arrival "Sg" d z a2
      ∧ GTT.resolveCell "Pg" z d a1 = GTT.resolveCell "Pg" z d a2
      ∧ GTT.resolveCell "Sg" z d a1 = GTT.resolveCell "Sg" z d a2
      ∧ Iasp.resolveCell "Pg" z d a1 = Iasp.resolveCell "Pg" z d a2
      ∧ Iasp.resolveCell "Sg" z d a1 = Iasp.resolveCell "Sg" z d a2 := by
  intro z d a1 a2
  exact ⟨rfl, rfl, rfl, rfl, rfl, rfl⟩

/-- Claim C6: divergence witness for the zero-depth depth-phase rule.
`generate_travel_time_tables._find_arrival` computes the stripped name at
depth 0 but matches on the unstripped `orig_phase`, so `pP` at depth 0 does
not accept a `P` arrival; `make-locsat-tables-iasp91.create_table` strips
the leading letter (`effName`) and resolves `pP` at depth 0 as `P` would,
as the claim states. -/
theorem c6_zero_depth_strip_bug :
    GTT.find_arrival "pP" 30 0 [⟨"P", 42, 0, 0⟩] = none
    ∧ Iasp.resolveCell "pP" 0 30 [⟨"P", 42, 0, 0⟩] = some 42
    ∧ effName "pP" 0 = "P"
    ∧ effName "pP" 1 = "pP" := by
  exact ⟨rfl, rfl, rfl, rfl⟩

/-- A whitespace-separated field of a velocity-model line: either a field
that parses as a number, or a non-numeric field (kept with its text).  This
abstracts Python's `float(x)`, which raises `ValueError` exactly on the
non-numeric fields. -/
inductive Tok where
  | num (q : ℚ)
  | raw (s : String)
deriving DecidableEq

/-- `float(x)` on one field: `some` on a numeric field, `none` where Python
raises `ValueError`. -/
def Tok.toQ : Tok → Option ℚ
  | Tok.num q => some q
  | Tok.raw _ => none

namespace Tvel

/-- The per-line parse step of `LocalVelocityModel.from_tvel_file`
(generate_travel_time_tables-with-tvel.py, lines 45-53): a line parses to a
`(depth, vp, vs, density)` row exactly when it has four fields and each
converts to a number; a wrong field count (`len(parts) != 4`) or a
`ValueError` both make the line yield nothing.  An empty line (`[]`) also
yields nothing, matching the `if not line: continue` guard. -/
def parseRow : List Tok → Option (ℚ × ℚ × ℚ × ℚ)
  | [Tok.num z, Tok.num vp, Tok.num vs, Tok.num den] => some (z, vp, vs, den)
  | _ => none

/-- The data rows accepted by `LocalVelocityModel.from_tvel_file`
(generate_travel_time_tables-with-tvel.py, lines 39-62), after the header
line has been consumed: every line that parses contributes a layer unless
`vp == 0 and vs == 0 and den == 0` (the layer-marker skip, line 56). -/
def from_tvel_rows (rows : List (List Tok)) : List (ℚ × ℚ × ℚ × ℚ) :=
  rows.filterMap (fun r =>
    match parseRow r with
    | some (z, vp, vs, den) =>
      if vp = 0 ∧ vs = 0 ∧ den = 0 then none else some (z, vp, vs, den)
    | none => none)

end Tvel

namespace GLT

/-- `LocalVelocityModel` of generate_local_tables.py: parallel arrays plus
the derived `max_depth` (stored at construction). -/
structure LocalVelocityModel where
  depths : List ℚ
  vp : List ℚ
  vs : List ℚ
  density : List ℚ
  max_depth : ℚ

/-- `LocalVelocityModel.get_velocity` (generate_local_tables.py, lines
64-77).  `np.searchsorted(depths, depth)` (side `left`, on the sorted
depth array) is the number of entries strictly below the query depth; the
natural-number subtraction `idx - 1` models the `if layer_index < 0:
layer_index = 0` clamp.  `wave_type.upper() == 'P'` is modelled for the
one-letter wave codes the scripts pass (`'P'`/`'S'` and their lowercase
forms).  Out-of-range indexing cannot occur for a model whose arrays have
equal positive length, so `List.get?` is used. -/
def get_velocity (m : LocalVelocityModel) (depth : ℚ) (wave : String) :
    Option ℚ :=
  if depth > m.max_depth then none
  else
    let idx := m.depths.countP (fun x => decide (x < depth))
    let layer := idx - 1
    if wave = "P" ∨ wave = "p" then m.vp.get? layer
    else if wave = "S" ∨ wave = "s" then m.vs.get? layer
    else none

/-- The two-layer crustal model of the spec's end-to-end example:
`(0 km, 5.8, 3.36)`, `(35 km, 6.5, 3.9)`. -/
def twoLayer : LocalVelocityModel :=
  { depths := [0, 35]
    vp := [5.8, 6.5]
    vs := [3.36, 3.9]
    density := [2.7, 2.9]
    max_depth := 35 }

/-- The line handling of `LocalVelocityModel.from_file`
(generate_local_tables.py, lines 40-44): blank lines and lines starting
with `#` are skipped before any parsing.  A stripped line starts with `#`
exactly when its first whitespace-separated field does (checked on the
field's first character; a field is never empty). -/
def lineSkipped (row : List Tok) : Bool :=
  row.isEmpty ||
    (match row.head? with
     | some (Tok.raw s) => s.front = '#'
     | _ => false)

/-- `[float(x) for x in line.split()]` (generate_local_tables.py, line 46):
`none` models the uncaught `ValueError` raised on a non-numeric field. -/
def toFloats (row : List Tok) : Option (List ℚ) := row.mapM Tok.toQ

/-- The row-accumulation loop of `LocalVelocityModel.from_file`
(generate_local_tables.py, lines 36-62): skipped lines contribute nothing;
a non-numeric field raises out of the whole construction (`none`); a parsed
line contributes a layer only when it has exactly four fields, and is
silently dropped otherwise. -/
def from_file_rows : List (List Tok) → Option (List (ℚ × ℚ × ℚ × ℚ))
  | [] => some []
  | row :: rest =>
    if lineSkipped row then from_file_rows rest
    else
      match toFloats row with
      | none => none
      | some [z, vp, vs, den] =>
        (from_file_rows rest).map (fun t => (z, vp, vs, den) :: t)
      | some _ => from_file_rows rest

end GLT

/-- Claim C7 counterexample: at a query depth exactly equal to a deeper
layer's boundary (35 km, the second layer of the two-layer model), the
lookup returns the shallower layer's velocity 5.8, not that layer's own
velocity 6.5 as the claim states. -/
theorem c7_step_lookup_cex :
    GLT.get_velocity GLT.twoLayer 35 "P" = some 5.8 ∧ (5.8 : ℚ) ≠ 6.5 := by
  exact ⟨rfl, by norm_num⟩

/-- Claim C7 (amended): above `max_depth` the lookup returns `ABSENT`;
otherwise it returns the velocity (for the requested wave type) of the
deepest layer whose depth is strictly less than the query depth, clamping
to the shallowest layer when no layer lies strictly below.  (At a query
depth exactly equal to a layer boundary the shallower layer's velocity is
returned, not that layer's own.) -/
theorem c7_step_lookup_amended :
    (∀ (m : GLT.LocalVelocityModel) (d : ℚ) (w : String),
       d > m.max_depth → GLT.get_velocity m d w = none)
    ∧ (∀ (m : GLT.LocalVelocityModel) (d : ℚ) (A B : List ℚ),
       ¬ d > m.max_depth → m.depths = A ++ B →
       (∀ x ∈ A, x < d) → (∀ x ∈ B, ¬ x < d) →
       GLT.get_velocity m d "P" = m.vp.get? (A.length - 1)
       ∧ GLT.get_velocity m d "S" = m.vs.get? (A.length - 1)) := by
  constructor
  · intro m d w h
    simp [GLT.get_velocity, h]
  · intro m d A B hmax hsplit hA hB
    have hcount : m.depths.countP (fun x => decide (x < d)) = A.length := by
      rw [hsplit, List.countP_append]
      have h1 : A.countP (fun x => decide (x < d)) = A.length :=
        List.countP_eq_length.mpr (fun a ha => by simpa using hA a ha)
      have h2 : B.countP (fun x => decide (x < d)) = 0 := by
        rw [List.countP_eq_zero]
        intro a ha
        simpa using hB a ha
      rw [h1, h2]
      rfl
    have hSP : ("S" : String) ≠ "P" := by decide
    have hSp : ("S" : String) ≠ "p" := by decide
    constructor
    · simp [GLT.get_velocity, hmax, hcount]
    · simp [GLT.get_velocity, hmax, hcount, hSP, hSp]

/-- Claim C7 witness: the amended lookup at 20 km depth in the two-layer
model returns the first layer's P velocity. -/
theorem c7_step_lookup_witness :
    GLT.get_velocity GLT.twoLayer 20 "P" = some 5.8 := by
  have h := (c7_step_lookup_amended.2 GLT.twoLayer 20 [0] [35]
    (by norm_num [GLT.twoLayer]) rfl (by norm_num) (by norm_num)).1
  rw [h]
  rfl

/-- Claim C8 counterexample: a row with zero velocities but nonzero density
(`10 0 0 2.7`) is kept as a layer by the TVEL parser, while the claim says
it must be skipped regardless of the density field. -/
theorem c8_zero_row_cex :
    Tvel.from_tvel_rows [[Tok.num 10, Tok.num 0, Tok.num 0, Tok.num 2.7]]
      = [(10, 0, 0, 2.7)]
    ∧ Tvel.from_tvel_rows [[Tok.num 10, Tok.num 0, Tok.num 0, Tok.num 2.7]]
      ≠ [] := by
  have h : Tvel.from_tvel_rows
      [[Tok.num 10, Tok.num 0, Tok.num 0, Tok.num 2.7]] = [(10, 0, 0, 2.7)] := by
    norm_num [Tvel.from_tvel_rows, Tvel.parseRow, List.filterMap_cons]
  exact ⟨h, by rw [h]; simp⟩

/-- Claim C8 (amended): a parsed row is skipped as a layer-boundary marker
exactly when its vp, vs and density fields are all zero; a zero-velocity
row with a nonzero density is kept as data. -/
theorem c8_zero_row_amended (r : List Tok) (rows : List (List Tok))
    (z vp vs den : ℚ) (h : Tvel.parseRow r = some (z, vp, vs, den)) :
    Tvel.from_tvel_rows (r :: rows) =
      if vp = 0 ∧ vs = 0 ∧ den = 0 then Tvel.from_tvel_rows rows
      else (z, vp, vs, den) :: Tvel.from_tvel_rows rows := by
  by_cases hz : vp = 0 ∧ vs = 0 ∧ den = 0
  · simp [Tvel.from_tvel_rows, List.filterMap_cons, h, hz]
  · simp [Tvel.from_tvel_rows, List.filterMap_cons, h, hz]

/-- Claim C8 witness: an ordinary data row is kept. -/
theorem c8_zero_row_witness :
    Tvel.from_tvel_rows [[Tok.num 5, Tok.num 6.5, Tok.num 3.9, Tok.num 2.9]]
      = [(5, 6.5, 3.9, 2.9)] := by
  have h := c8_zero_row_amended
    [Tok.num 5, Tok.num 6.5, Tok.num 3.9, Tok.num 2.9] [] 5 6.5 3.9 2.9 rfl
  rw [h]
  norm_num [Tvel.from_tvel_rows]

/-- Claim C9 counterexample: in `LocalVelocityModel.from_file`
(generate_local_tables.py) a line with a non-numeric field makes the whole
model construction fail (`ValueError` is not caught), instead of being
skipped: the well-formed first row is lost. -/
theorem c9_malformed_cex :
    GLT.from_file_rows
      [[Tok.num 0, Tok.num 5.8, Tok.num 3.36, Tok.num 2.7], [Tok.raw "x"]]
      = none
    ∧ GLT.from_file_rows
      [[Tok.num 0, Tok.num 5.8, Tok.num 3.36, Tok.num 2.7], [Tok.raw "x"]]
      ≠ some [(0, 5.8, 3.36, 2.7)] := by
  exact ⟨rfl, by decide⟩

/-- Claim C9 (amended): the TVEL parser skips every malformed line (wrong
field count or a non-numeric field) and keeps parsing; in
`LocalVelocityModel.from_file`, a non-comment line with the wrong field
count is skipped silently, but a non-numeric field in a non-comment line
makes model construction fail. -/
theorem c9_malformed_amended :
    (∀ (r : List Tok) (rows : List (List Tok)),
       Tvel.parseRow r = none →
       Tvel.from_tvel_rows (r :: rows) = Tvel.from_tvel_rows rows)
    ∧ (∀ (r : List Tok) (rows : List (List Tok)) (vals : List ℚ),
       GLT.lineSkipped r = false → GLT.toFloats r = some vals →
       vals.length ≠ 4 →
       GLT.from_file_rows (r :: rows) = GLT.from_file_rows rows)
    ∧ (∀ (r : List Tok) (rows : List (List Tok)),
       GLT.lineSkipped r = false → GLT.toFloats r = none →
       GLT.from_file_rows (r :: rows) = none) := by
  refine ⟨?_, ?_, ?_⟩
  · intro r rows h
    simp [Tvel.from_tvel_rows, List.filterMap_cons, h]
  · intro r rows vals hskip hfl hlen
    rcases vals with _ | ⟨a, _ | ⟨b, _ | ⟨c, _ | ⟨e, _ | ⟨f, tail⟩⟩⟩⟩⟩ <;>
      simp_all [GLT.from_file_rows]
  · intro r rows hskip hfl
    simp [GLT.from_file_rows, hskip, hfl]

/-- Claim C9 witness: a malformed line before a good row leaves the TVEL
model with exactly the well-formed row. -/
theorem c9_malformed_witness :
    Tvel.from_tvel_rows
      [[Tok.raw "junk"], [Tok.num 5, Tok.num 6.5, Tok.num 3.9, Tok.num 2.9]]
      = [(5, 6.5, 3.9, 2.9)] := by
  have h := c9_malformed_amended.1 [Tok.raw "junk"]
    [[Tok.num 5, Tok.num 6.5, Tok.num 3.9, Tok.num 2.9]] rfl
  rw [h]
  norm_num [Tvel.from_tvel_rows, Tvel.parseRow, List.filterMap_cons]

/-- One line of the serialized per-depth table body: a `# z = ...` depth
header comment, or one travel-time line (`none` is the `-1.000` sentinel).
The fixed-width string formatting itself is out of scope (spec §1: the
serialization is in scope only as a layout contract). -/
inductive TableLine where
  | depthHeader (z : ℚ)
  | timeLine (t : Option ℝ)

/-- Is this line a travel-time line? -/
def isTimeLine : TableLine → Bool
  | TableLine.timeLine _ => true
  | _ => false

/-- Is this line a depth-header comment line? -/
def isDepthHeaderLine : TableLine → Bool
  | TableLine.depthHeader _ => true
  | _ => false

/-- Number of travel-time lines in a table body. -/
def countTimeLines (ls : List TableLine) : ℕ := ls.countP isTimeLine

/-- Number of depth-header comment lines in a table body. -/
def countDepthHeaderLines (ls : List TableLine) : ℕ :=
  ls.countP isDepthHeaderLine

namespace GTT

/-- The per-depth body loop of `TravelTimeCalculator.create_table`
(generate_travel_time_tables.py, lines 314-331): for each depth one header
line, then one time line per distance; `oracle d z` stands for
`compute_travel_times(distance, depth)` (an oracle exception yields `[]`). -/
noncomputable def tableBody (phase : String) (dists : List ℚ)
    (oracle : ℚ → ℚ → List Arrival) : List ℚ → List TableLine
  | [] => []
  | z :: restz =>
    (TableLine.depthHeader z ::
      dists.map (fun d => TableLine.timeLine (resolveCell phase z d (oracle d z))))
      ++ tableBody phase dists oracle restz

end GTT

namespace GLT

/-- The per-depth body loop of `main` (generate_local_tables.py, lines
190-198): for each depth one header line, then one time line per distance;
`calcTime` stands for `calculator.calculate_local_time(phase, ., .)`. -/
def tableBody (calcTime : ℚ → ℚ → Option ℝ) (dists : List ℚ) :
    List ℚ → List TableLine
  | [] => []
  | z :: restz =>
    (TableLine.depthHeader z ::
      dists.map (fun d => TableLine.timeLine (calcTime z d)))
      ++ tableBody calcTime dists restz

end GLT

namespace TTT

/-- `is_surface_wave` (travel-time-tables.py, lines 3-5). -/
def is_surface_wave (phase : String) : Bool :=
  (["Lg", "LQ", "LR", "Rg"] : List String).contains phase

/-- `is_depth_phase` (travel-time-tables.py, lines 7-9). -/
def is_depth_phase (phase : String) : Bool :=
  (phase.startsWith "p" || phase.startsWith "s") &&
    !(phase.startsWith "pP" || phase.startsWith "sP")

/-- `get_phase_characteristics` (travel-time-tables.py, lines 11-79):
`(min_distance, max_distance, max_depth, velocity_type)`, defaulting to
`(0, 180, 800, "P")` for unknown phases. -/
def get_phase_characteristics (phase : String) : ℚ × ℚ × ℚ × String :=
  match phase with
  | "P" => (0, 180, 800, "P")
  | "S" => (0, 180, 800, "S")
  | "Pg" => (0, 10, 30, "Pcrust")
  | "Pb" => (0, 10, 30, "Pcrust")
  | "Sg" => (0, 10, 30, "Scrust")
  | "Sb" => (0, 10, 30, "Scrust")
  | "Pn" => (2, 15, 50, "Pmantle")
  | "Sn" => (2, 15, 50, "Smantle")
  | "PKP" => (110, 180, 800, "PKP")
  | "PKPab" => (140, 180, 800, "PKPab")
  | "PKPbc" => (140, 180, 800, "PKPbc")
  | "PKPdf" => (110, 180, 800, "PKPdf")
  | "PKKP" => (110, 180, 800, "PKKP")
  | "SKS" => (60, 180, 800, "SKS")
  | "SKSac" => (60, 180, 800, "SKSac")
  | "SKSdf" => (60, 180, 800, "SKSdf")
  | "SKKP" => (60, 180, 800, "SKKP")
  | "SKP" => (60, 180, 800, "SKP")
  | "SKPdf" => (60, 180, 800, "SKPdf")
  | "PP" => (0, 180, 800, "PP")
  | "SS" => (0, 180, 800, "SS")
  | "PcP" => (0, 100, 800, "PcP")
  | "ScP" => (0, 100, 800, "ScP")
  | "ScS" => (0, 100, 800, "ScS")
  | "pP_" => (0, 180, 800, "pP")
  | "sP" => (0, 180, 800, "sP")
  | "sS_" => (0, 180, 800, "sS")
  | "pPKPab" => (140, 180, 800, "pPKPab")
  | "pPKPbc" => (140, 180, 800, "pPKPbc")
  | "pPKPdf" => (110, 180, 800, "pPKPdf")
  | "sPKPab" => (140, 180, 800, "sPKPab")
  | "sPKPbc" => (140, 180, 800, "sPKPbc")
  | "sPKPdf" => (110, 180, 800, "sPKPdf")
  | "Lg" => (0, 30, 0, "Lg")
  | "LQ" => (0, 30, 0, "LQ")
  | "LR" => (0, 30, 0, "LR")
  | "Rg" => (0, 30, 0, "Rg")
  | "Is" => (0, 180, 800, "I")
  | "It" => (0, 180, 800, "I")
  | "Iw" => (0, 180, 800, "I")
  | "P1" => (0, 15, 50, "P1")
  | _ => (0, 180, 800, "P")

/-- The surface-wave group velocities (travel-time-tables.py, lines
100-107); only queried under `is_surface_wave`, so the catchall is
unreachable (Python would raise `KeyError` there). -/
def surface_velocity (phase : String) : ℚ :=
  match phase with
  | "Lg" => 3.5
  | "LQ" => 3.2
  | "LR" => 3.0
  | "Rg" => 2.8
  | _ => 0

/-- The base body-wave velocities (travel-time-tables.py, lines 109-129),
with the `velocities.get(velocity_type, 6.0)` default. -/
def base_velocity (vtype : String) : ℚ :=
  match vtype with
  | "P" => 6.8
  | "S" => 3.9
  | "Pcrust" => 6.2
  | "Scrust" => 3.5
  | "Pmantle" => 8.0
  | "Smantle" => 4.5
  | "PKP" => 7.2
  | "PKPab" => 7.3
  | "PKPbc" => 7.1
  | "PKPdf" => 7.0
  | "SKS" => 4.8
  | "PcP" => 6.9
  | "ScS" => 4.0
  | "I" => 6.5
  | "P1" => 6.4
  | _ => 6.0

/-- `calculate_travel_time` (travel-time-tables.py, lines 81-137). -/
noncomputable def calculate_travel_time (phase : String) (depth distance : ℚ) :
    Option ℝ :=
  let c := get_phase_characteristics phase
  if distance < c.1 ∨ distance > c.2.1 ∨ depth > c.2.2.1 then none
  else
    let distance_km : ℚ := distance * 111.19
    if is_surface_wave phase then
      if depth > 0 then none
      else some ((distance_km : ℝ) / (surface_velocity phase : ℝ))
    else
      let v : ℚ :=
        if is_depth_phase phase then base_velocity c.2.2.2 * 0.95
        else base_velocity c.2.2.2
      some (Real.sqrt ((distance_km : ℝ) ^ 2 + (depth : ℝ) ^ 2) / (v : ℝ))

/-- The per-depth body loop of `generate_travel_time_table`
(travel-time-tables.py, lines 155-166): for each depth one header line, one
time line per distance, and then one more `-1.000` sentinel line (line 165)
after the distance loop. -/
noncomputable def tableBody (phase : String) (dists : List ℚ) :
    List ℚ → List TableLine
  | [] => []
  | z :: restz =>
    ((TableLine.depthHeader z ::
      dists.map (fun d => TableLine.timeLine (calculate_travel_time phase z d)))
      ++ [TableLine.timeLine none])
      ++ tableBody phase dists restz

end TTT

theorem countP_isTimeLine_map (g : ℚ → Option ℝ) (dists : List ℚ) :
    (dists.map (fun d => TableLine.timeLine (g d))).countP isTimeLine
      = dists.length := by
  induction dists with
  | nil => rfl
  | cons d rest ih => simp [List.countP_cons, isTimeLine, ih]

theorem countP_isDepthHeader_map (g : ℚ → Option ℝ) (dists : List ℚ) :
    (dists.map (fun d => TableLine.timeLine (g d))).countP isDepthHeaderLine
      = 0 := by
  induction dists with
  | nil => rfl
  | cons d rest ih => simp [List.countP_cons, isDepthHeaderLine, ih]

theorem countTimeLines_GTT (phase : String) (dists : List ℚ)
    (oracle : ℚ → ℚ → List Arrival) (depths : List ℚ) :
    countTimeLines (GTT.tableBody phase dists oracle depths)
      = depths.length * dists.length := by
  induction depths with
  | nil => simp [GTT.tableBody, countTimeLines]
  | cons z rest ih =>
    unfold countTimeLines at ih ⊢
    rw [GTT.tableBody, List.countP_append, List.countP_cons,
      countP_isTimeLine_map, ih]
    simp [isTimeLine]
    ring

theorem countDepthHeaderLines_GTT (phase : String) (dists : List ℚ)
    (oracle : ℚ → ℚ → List Arrival) (depths : List ℚ) :
    countDepthHeaderLines (GTT.tableBody phase dists oracle depths)
      = depths.length := by
  induction depths with
  | nil => rfl
  | cons z rest ih =>
    unfold countDepthHeaderLines at ih ⊢
    rw [GTT.tableBody, List.countP_append, List.countP_cons,
      countP_isDepthHeader_map, ih]
    simp [isDepthHeaderLine]
    ring

theorem countTimeLines_GLT (calcTime : ℚ → ℚ → Option ℝ) (dists : List ℚ)
    (depths : List ℚ) :
    countTimeLines (GLT.tableBody calcTime dists depths)
      = depths.length * dists.length := by
  induction depths with
  | nil => simp [GLT.tableBody, countTimeLines]
  | cons z rest ih =>
    unfold countTimeLines at ih ⊢
    rw [GLT.tableBody, List.countP_append, List.countP_cons,
      countP_isTimeLine_map, ih]
    simp [isTimeLine]
    ring

theorem countDepthHeaderLines_GLT (calcTime : ℚ → ℚ → Option ℝ)
    (dists : List ℚ) (depths : List ℚ) :
    countDepthHeaderLines (GLT.tableBody calcTime dists depths)
      = depths.length := by
  induction depths with
  | nil => rfl
  | cons z rest ih =>
    unfold countDepthHeaderLines at ih ⊢
    rw [GLT.tableBody, List.countP_append, List.countP_cons,
      countP_isDepthHeader_map, ih]
    simp [isDepthHeaderLine]
    ring

theorem countTimeLines_TTT (phase : String) (dists : List ℚ)
    (depths : List ℚ) :
    countTimeLines (TTT.tableBody phase dists depths)
      = depths.length * (dists.length + 1) := by
  induction depths with
  | nil => simp [TTT.tableBody, countTimeLines]
  | cons z rest ih =>
    unfold countTimeLines at ih ⊢
    rw [TTT.tableBody, List.countP_append, List.countP_append,
      List.countP_cons, countP_isTimeLine_map, ih]
    simp [isTimeLine, List.countP_cons]
    ring

theorem countDepthHeaderLines_TTT (phase : String) (dists : List ℚ)
    (depths : List ℚ) :
    countDepthHeaderLines (TTT.tableBody phase dists depths)
      = depths.length := by
  induction depths with
  | nil => rfl
  | cons z rest ih =>
    unfold countDepthHeaderLines at ih ⊢
    rw [TTT.tableBody, List.countP_append, List.countP_append,
      List.countP_cons, countP_isDepthHeader_map, ih]
    simp [isDepthHeaderLine, List.countP_cons]
    omega

/-- Claim C10: the table bodies of generate_travel_time_tables.create_table
and of generate_local_tables.main contain exactly one time line per (depth,
distance) grid cell — `len(depths) * len(dists)` time lines, in depth-major
order — and one depth-header line per depth, as the claim states; but
travel-time-tables.generate_travel_time_table additionally appends one more
`-1.000` sentinel time line after each depth block (line 165), so its body
has `len(depths) * (len(dists) + 1)` time lines: with one depth and two
distances it emits 3 time lines where the claim requires 2. -/
theorem c10_table_layout :
    (∀ (phase : String) (depths dists : List ℚ)
       (oracle : ℚ → ℚ → List Arrival),
       countTimeLines (GTT.tableBody phase dists oracle depths)
         = depths.length * dists.length
       ∧ countDepthHeaderLines (GTT.tableBody phase dists oracle depths)
         = depths.length)
    ∧ (∀ (calcTime : ℚ → ℚ → Option ℝ) (depths dists : List ℚ),
       countTimeLines (GLT.tableBody calcTime dists depths)
         = depths.length * dists.length
       ∧ countDepthHeaderLines (GLT.tableBody calcTime dists depths)
         = depths.length)
    ∧ (∀ (phase : String) (depths dists : List ℚ),
       countTimeLines (TTT.tableBody phase dists depths)
         = depths.length * (dists.length + 1)
       ∧ countDepthHeaderLines (TTT.tableBody phase dists depths)
         = depths.length)
    ∧ countTimeLines (TTT.tableBody "P" [0, 1] [0]) = 3
    ∧ (3 : ℕ) ≠ 1 * 2 := by
  refine ⟨?_, ?_, ?_, ?_, by norm_num⟩
  · intro phase depths dists oracle
    exact ⟨countTimeLines_GTT phase dists oracle depths,
      countDepthHeaderLines_GTT phase dists oracle depths⟩
  · intro calcTime depths dists
    exact ⟨countTimeLines_GLT calcTime dists depths,
      countDepthHeaderLines_GLT calcTime dists depths⟩
  · intro phase depths dists
    exact ⟨countTimeLines_TTT phase dists depths,
      countDepthHeaderLines_TTT phase dists depths⟩
  · rw [countTimeLines_TTT "P" [0, 1] [0]]
    rfl
